import Mathlib

/-!
Shallow embedding of the state-aggregation core of the one-goal desktop
reminder application, together with the `DisabledState` time-window tracker
and the Todoist API error handling, and proofs of the specified properties.

The aggregator (`AppState`) implementation itself is not part of the
available sources; only its unit-test suite is. Its embedding below is
therefore modelled from the specification (each such definition says so in
its doc comment) and checked against the behaviour pinned down by the test
suite. `DisabledState` and the Todoist request error handling are embedded
directly from their source files.
-/

/-- Point-in-time fact snapshot about the task universe, produced externally
(see the `TasksState` typedef used by the test suite and the spec data model). -/
structure TasksState where
  numberOverdueWithTime : Nat
  numberOverdueWithTimeMarkedCurrent : Nat
  numberOverdueWithTimeNotMarkedCurrent : Nat
  numberMarkedCurrent : Nat
  currentTaskTitle : String
  currentTaskHasDate : Bool
  currentTaskHasTime : Bool
  currentTaskIsOverdue : Bool
deriving Repr, DecidableEq

/-- Severity enumeration `{ ok, warning, error }` (spec data model; the string
values used in the test suite). -/
inductive Status where
  | ok
  | warning
  | error
deriving Repr, DecidableEq

/-- A custom status rule `{ condition, resultingStatus, resultingMessage }`,
with the condition type opaque to the core (spec data model). -/
structure CustomStateRule (C : Type) where
  condition : C
  resultingStatus : Status
  resultingMessage : String
deriving Repr, DecidableEq

/-- Rule-set configuration: ordered custom state rules plus nagging and
downtime condition lists, each defaulting to empty when absent
(spec data model; the test suite constructs such objects, often omitting
fields). -/
structure AppStateConfiguration (C : Type) where
  customStateRules : List (CustomStateRule C) := []
  naggingConditions : List C := []
  downtimeConditions : List C := []
deriving Repr, DecidableEq

/-- Evaluation context handed to the condition matcher: exactly one of a
tasks state or an error message, paired with the current time (spec §3
`EvaluationContext`, represented as the sum type the spec asks for). -/
inductive EvaluationContext where
  | fromTasksState (tasksState : TasksState) (now : Int)
  | fromError (errorMessage : String) (now : Int)
deriving Repr, DecidableEq

/-- The aggregator's output value (spec data model `StatusSnapshot`). -/
structure StatusSnapshot where
  status : Status
  message : String
  naggingEnabled : Bool
  downtimeEnabled : Bool
deriving Repr, DecidableEq

/-- Modelled from the spec: the default status/message derivation of
`updateFromTasksState` (spec §4.1), applied when no custom rule matches.
The `AppState` source file is missing; the three cases are pinned down by
the tests "sets the message to the current task's title if there is exactly
one", "indicates if there is no current task" and "indicates if there are
multiple tasks marked current". -/
def defaultStatusMessage (s : TasksState) : Status × String :=
  if s.numberMarkedCurrent = 1 then
    (Status.ok, s.currentTaskTitle)
  else if s.numberMarkedCurrent = 0 then
    (Status.ok, "(no current task)")
  else
    (Status.ok, "(" ++ toString s.numberMarkedCurrent ++ " tasks marked current)")

/-- Modelled from the spec: the nagging/downtime flag computation shared by
both entry points (spec §4.1): `downtimeEnabled` iff some downtime condition
matches, `naggingEnabled` iff some nagging condition matches and downtime is
not enabled. Returns `(naggingEnabled, downtimeEnabled)`. -/
def computeFlags {C : Type} (m : C → EvaluationContext → Bool)
    (cfg : AppStateConfiguration C) (ctx : EvaluationContext) : Bool × Bool :=
  let downtimeEnabled := cfg.downtimeConditions.any (fun c => m c ctx)
  let naggingEnabled := cfg.naggingConditions.any (fun c => m c ctx) && !downtimeEnabled
  (naggingEnabled, downtimeEnabled)

/-- Modelled from the spec: the snapshot computed by `updateFromTasksState`
(spec §4.1). The ordered scan over `customStateRules` adopts the first rule
whose condition matches; otherwise the default derivation stands. -/
def computeTasksStateSnapshot {C : Type} (m : C → EvaluationContext → Bool)
    (cfg : AppStateConfiguration C) (s : TasksState) (now : Int) : StatusSnapshot :=
  let ctx := EvaluationContext.fromTasksState s now
  let firstMatch := cfg.customStateRules.find? (fun r => m r.condition ctx)
  let sm := match firstMatch with
    | some r => (r.resultingStatus, r.resultingMessage)
    | none => defaultStatusMessage s
  let flags := computeFlags m cfg ctx
  { status := sm.1, message := sm.2, naggingEnabled := flags.1, downtimeEnabled := flags.2 }

/-- Modelled from the spec: the snapshot computed by
`updateFromTaskStateError` (spec §4.1): status is unconditionally `error`
with the given message, custom state rules are not consulted, and the
nagging/downtime flags are recomputed against the error context. -/
def computeErrorSnapshot {C : Type} (m : C → EvaluationContext → Bool)
    (cfg : AppStateConfiguration C) (errorMessage : String) (now : Int) : StatusSnapshot :=
  let ctx := EvaluationContext.fromError errorMessage now
  let flags := computeFlags m cfg ctx
  { status := Status.error, message := errorMessage,
    naggingEnabled := flags.1, downtimeEnabled := flags.2 }

/-- Modelled from the spec: the aggregator. It holds the injected condition
matcher, the current rule-set configuration and the latest status snapshot
(spec §4.1; the test suite constructs it as
`new AppState(new ConditionMatcher(), configuration)`). -/
structure AppState (C : Type) where
  conditionMatcher : C → EvaluationContext → Bool
  configuration : AppStateConfiguration C
  snapshot : StatusSnapshot

/-- Modelled from the spec: `updateFromTasksState(tasksState, now)` replaces
the stored snapshot with the freshly computed one. -/
def AppState.updateFromTasksState {C : Type} (a : AppState C)
    (s : TasksState) (now : Int) : AppState C :=
  { a with snapshot := computeTasksStateSnapshot a.conditionMatcher a.configuration s now }

/-- Modelled from the spec: `updateFromTaskStateError(errorMessage, now)`
replaces the stored snapshot with the freshly computed error snapshot. -/
def AppState.updateFromTaskStateError {C : Type} (a : AppState C)
    (errorMessage : String) (now : Int) : AppState C :=
  { a with snapshot := computeErrorSnapshot a.conditionMatcher a.configuration errorMessage now }

/-- Modelled from the spec: `getSnapshot()` returns the current snapshot by
value. -/
def AppState.getSnapshot {C : Type} (a : AppState C) : StatusSnapshot :=
  a.snapshot

/-- Modelled from the spec: `getSnapshot()` as an operation on the
aggregator, returning the snapshot by value together with the aggregator
state after the read (the read mutates nothing). -/
def AppState.readSnapshot {C : Type} (a : AppState C) : StatusSnapshot × AppState C :=
  (a.snapshot, a)

/-- Modelled from the spec: `configure(ruleSetConfiguration)` replaces the
held configuration wholesale without re-evaluating the snapshot. -/
def AppState.configure {C : Type} (a : AppState C)
    (cfg : AppStateConfiguration C) : AppState C :=
  { a with configuration := cfg }

/-! ## Fallible-matcher variant of the aggregator

The spec's failure semantics (§4.1, §7) say that a condition-matcher failure
propagates uncaught and leaves the previous snapshot authoritative. To state
that, the matcher is modelled as possibly raising (returning
`Except.error`), the whole evaluation is run in the `Except` monad, and the
snapshot is replaced only by a fully computed value. -/

/-- Modelled from the spec: scan of the custom state rules with a matcher
that may raise; stops at the first match, propagating any matcher failure. -/
def findFirstMatchingRule {C : Type} (m : C → EvaluationContext → Except String Bool)
    (ctx : EvaluationContext) :
    List (CustomStateRule C) → Except String (Option (CustomStateRule C))
  | [] => Except.ok none
  | r :: rest => do
    let b ← m r.condition ctx
    if b then pure (some r) else findFirstMatchingRule m ctx rest

/-- Modelled from the spec: ordered, short-circuiting disjunction over a
condition list with a matcher that may raise. -/
def anyConditionMatches {C : Type} (m : C → EvaluationContext → Except String Bool)
    (ctx : EvaluationContext) : List C → Except String Bool
  | [] => Except.ok false
  | c :: rest => do
    let b ← m c ctx
    if b then pure true else anyConditionMatches m ctx rest

/-- Modelled from the spec: the whole tasks-state evaluation in the presence
of a matcher that may raise; any failure aborts the evaluation before a
snapshot value exists. -/
def evaluateTasksState {C : Type} (m : C → EvaluationContext → Except String Bool)
    (cfg : AppStateConfiguration C) (s : TasksState) (now : Int) :
    Except String StatusSnapshot := do
  let ctx := EvaluationContext.fromTasksState s now
  let firstMatch ← findFirstMatchingRule m ctx cfg.customStateRules
  let sm := match firstMatch with
    | some r => (r.resultingStatus, r.resultingMessage)
    | none => defaultStatusMessage s
  let downtimeEnabled ← anyConditionMatches m ctx cfg.downtimeConditions
  let anyNagging ← anyConditionMatches m ctx cfg.naggingConditions
  pure { status := sm.1, message := sm.2,
         naggingEnabled := anyNagging && !downtimeEnabled,
         downtimeEnabled := downtimeEnabled }

/-- Modelled from the spec: the whole error-path evaluation in the presence
of a matcher that may raise. -/
def evaluateTaskStateError {C : Type} (m : C → EvaluationContext → Except String Bool)
    (cfg : AppStateConfiguration C) (errorMessage : String) (now : Int) :
    Except String StatusSnapshot := do
  let ctx := EvaluationContext.fromError errorMessage now
  let downtimeEnabled ← anyConditionMatches m ctx cfg.downtimeConditions
  let anyNagging ← anyConditionMatches m ctx cfg.naggingConditions
  pure { status := Status.error, message := errorMessage,
         naggingEnabled := anyNagging && !downtimeEnabled,
         downtimeEnabled := downtimeEnabled }

/-- Modelled from the spec: the aggregator with a matcher that may raise. -/
structure FallibleAppState (C : Type) where
  conditionMatcher : C → EvaluationContext → Except String Bool
  configuration : AppStateConfiguration C
  snapshot : StatusSnapshot

/-- Modelled from the spec: a tasks-state update whose evaluation may fail.
The result is the aggregator as the caller observes it afterwards, paired
with the propagated failure when there is one: on failure the aggregator is
untouched, on success the snapshot is replaced wholesale. -/
def FallibleAppState.tryUpdateFromTasksState {C : Type} (a : FallibleAppState C)
    (s : TasksState) (now : Int) : FallibleAppState C × Option String :=
  match evaluateTasksState a.conditionMatcher a.configuration s now with
  | Except.ok snap => ({ a with snapshot := snap }, none)
  | Except.error e => (a, some e)

/-- Modelled from the spec: an error update whose evaluation may fail,
analogous to `FallibleAppState.tryUpdateFromTasksState`. -/
def FallibleAppState.tryUpdateFromTaskStateError {C : Type} (a : FallibleAppState C)
    (errorMessage : String) (now : Int) : FallibleAppState C × Option String :=
  match evaluateTaskStateError a.conditionMatcher a.configuration errorMessage now with
  | Except.ok snap => ({ a with snapshot := snap }, none)
  | Except.error e => (a, some e)

/-- Modelled from the spec: `getSnapshot()` on the fallible-matcher model. -/
def FallibleAppState.getSnapshot {C : Type} (a : FallibleAppState C) : StatusSnapshot :=
  a.snapshot

/-! ## DisabledState (embedded from its source file)

Times are modelled as integers (milliseconds since the epoch); a `moment`
value held in `_disabledUntil` is `Option Int`, with `none` standing for
`undefined`. `moment.isBefore` is strict `<`. -/

/-- The `DisabledState` class: `_disabledUntil` is `undefined` or a moment. -/
structure DisabledState where
  disabledUntil : Option Int
deriving Repr, DecidableEq

/-- `new DisabledState()` sets `_disabledUntil` to `undefined`. -/
def DisabledState.init : DisabledState :=
  { disabledUntil := none }

/-- `update(now)`: clears `_disabledUntil` when it is set and strictly
before `now` (moment's `isBefore`). -/
def DisabledState.update (d : DisabledState) (now : Int) : DisabledState :=
  match d.disabledUntil with
  | some t => if t < now then { disabledUntil := none } else d
  | none => d

/-- `disableForMinutes(minutes, now)`: sets `_disabledUntil` to `now` plus
the given number of minutes (milliseconds granularity). -/
def DisabledState.disableForMinutes (d : DisabledState) (minutes now : Int) : DisabledState :=
  { d with disabledUntil := some (now + minutes * 60000) }

/-- `enableApp()`: clears `_disabledUntil`. -/
def DisabledState.enableApp (d : DisabledState) : DisabledState :=
  { d with disabledUntil := none }

/-- `isAppDisabled()`: `!!this._disabledUntil` (a moment object is always
truthy, so this is definedness of `_disabledUntil`). -/
def DisabledState.isAppDisabled (d : DisabledState) : Bool :=
  d.disabledUntil.isSome

/-! ## Todoist API request error handling (embedded from its source file) -/

/-- The part of an axios HTTP response relevant to error handling. -/
structure AxiosResponse where
  status : Nat
deriving Repr, DecidableEq

/-- An axios transport error: `error.response` is present when the server
responded with a non-success status, absent when no response was received. -/
structure AxiosError where
  response : Option AxiosResponse
deriving Repr, DecidableEq

/-- Outcome of the axios call inside `_performApiRequest`: either the
response data or a thrown transport error. -/
inductive AxiosOutcome (A : Type) where
  | success (data : A)
  | failure (e : AxiosError)
deriving Repr, DecidableEq

/-- `Todoist._handleApiRequestError(callDescription, error)`: throws
`Error("Invalid Todoist token")` when a response with status 403 was
received, otherwise throws `Error("Problem reaching Todoist")`; it never
returns normally, which the `Except` result makes provable rather than
assumed. -/
def handleApiRequestError (e : AxiosError) : Except String Unit :=
  match e.response with
  | some r =>
    if r.status = 403 then Except.error "Invalid Todoist token"
    else Except.error "Problem reaching Todoist"
  | none => Except.error "Problem reaching Todoist"

/-- `Todoist._performApiRequest(method, relativeUrl, data)` modulo the HTTP
call itself: on axios success it returns `response.data`; on axios failure
it runs `_handleApiRequestError` and, were that to return normally, would
itself return `undefined` (modelled as `none`). -/
def performApiRequest {A : Type} (outcome : AxiosOutcome A) : Except String (Option A) :=
  match outcome with
  | AxiosOutcome.success d => Except.ok (some d)
  | AxiosOutcome.failure e =>
    match handleApiRequestError e with
    | Except.ok _ => Except.ok none
    | Except.error msg => Except.error msg

/-! ## Theorems -/

/-- Claim C9: `DisabledState` expiry is strict: `update(now)` clears the
disabled window only when the stored disabled-until moment is strictly
before `now`, so when it equals `now` the app is still disabled after the
update; after `disableForMinutes` the app is disabled, and after
`enableApp` it is not. -/
theorem disabledState_strict_expiry (d : DisabledState) (t minutes now : Int) :
    ((DisabledState.mk (some t)).update now).isAppDisabled = decide (now ≤ t)
    ∧ ((DisabledState.mk (some now)).update now).isAppDisabled = true
    ∧ (d.disableForMinutes minutes now).isAppDisabled = true
    ∧ d.enableApp.isAppDisabled = false := by
  refine ⟨?_, ?_, ?_, ?_⟩
  · by_cases h : t < now
    · have hle : ¬ now ≤ t := by omega
      simp [DisabledState.update, DisabledState.isAppDisabled, h, hle]
    · have hle : now ≤ t := by omega
      simp [DisabledState.update, DisabledState.isAppDisabled, h, hle]
  · simp [DisabledState.update, DisabledState.isAppDisabled]
  · simp [DisabledState.disableForMinutes, DisabledState.isAppDisabled]
  · simp [DisabledState.enableApp, DisabledState.isAppDisabled]

/-- Claim C10: every failed Todoist API request results in a thrown error
and never a returned value: a 403 response yields exactly
"Invalid Todoist token", any other failure (non-403 response or no
response) yields exactly "Problem reaching Todoist", and the transport
error itself never escapes `_performApiRequest`. -/
theorem todoist_failed_request_error_mapping {A : Type} (e : AxiosError) :
    (∀ v : Option A, performApiRequest (AxiosOutcome.failure e) ≠ Except.ok v)
    ∧ (∀ r, e.response = some r → r.status = 403 →
        performApiRequest (AxiosOutcome.failure e)
          = (Except.error "Invalid Todoist token" : Except String (Option A)))
    ∧ (∀ r, e.response = some r → r.status ≠ 403 →
        performApiRequest (AxiosOutcome.failure e)
          = (Except.error "Problem reaching Todoist" : Except String (Option A)))
    ∧ (e.response = none →
        performApiRequest (AxiosOutcome.failure e)
          = (Except.error "Problem reaching Todoist" : Except String (Option A))) := by
  refine ⟨?_, ?_, ?_, ?_⟩
  · intro v
    match h : e.response with
    | some r =>
      by_cases h403 : r.status = 403 <;>
        simp [performApiRequest, handleApiRequestError, h, h403]
    | none =>
      simp [performApiRequest, handleApiRequestError, h]
  · intro r hr h403
    simp [performApiRequest, handleApiRequestError, hr, h403]
  · intro r hr h403
    simp [performApiRequest, handleApiRequestError, hr, h403]
  · intro hnone
    simp [performApiRequest, handleApiRequestError, hnone]

/-- Witness for claim C10 at concrete failures: a 403 response, a 500
response and a missing response. -/
theorem todoist_failed_request_error_mapping_witness :
    performApiRequest (AxiosOutcome.failure ⟨some ⟨403⟩⟩ : AxiosOutcome Nat)
      = Except.error "Invalid Todoist token"
    ∧ performApiRequest (AxiosOutcome.failure ⟨some ⟨500⟩⟩ : AxiosOutcome Nat)
      = Except.error "Problem reaching Todoist"
    ∧ performApiRequest (AxiosOutcome.failure ⟨none⟩ : AxiosOutcome Nat)
      = Except.error "Problem reaching Todoist"
    ∧ performApiRequest (AxiosOutcome.failure ⟨none⟩ : AxiosOutcome Nat) ≠ Except.ok none :=
  ⟨(todoist_failed_request_error_mapping ⟨some ⟨403⟩⟩).2.1 ⟨403⟩ rfl rfl,
   (todoist_failed_request_error_mapping ⟨some ⟨500⟩⟩).2.2.1 ⟨500⟩ rfl (by decide),
   (todoist_failed_request_error_mapping ⟨none⟩).2.2.2 rfl,
   (todoist_failed_request_error_mapping ⟨none⟩).1 none⟩

/-- Boolean shape of the nagging/downtime interaction: the two flags
produced by the shared flag computation are never both true. -/
theorem nagging_downtime_not_both (x y : Bool) : (!((x && !y) && y)) = true := by
  cases x <;> cases y <;> rfl

/-- Claim C2: in every context (tasks-state update or error update),
`downtimeEnabled` holds iff some downtime condition matches,
`naggingEnabled` holds iff some nagging condition matches and downtime is
not enabled, and the two flags are never both true. -/
theorem appState_downtime_suppresses_nagging {C : Type} (a : AppState C)
    (s : TasksState) (e : String) (now : Int) :
    ((a.updateFromTasksState s now).getSnapshot.downtimeEnabled
        = a.configuration.downtimeConditions.any
            (fun c => a.conditionMatcher c (EvaluationContext.fromTasksState s now)))
    ∧ ((a.updateFromTasksState s now).getSnapshot.naggingEnabled
        = (a.configuration.naggingConditions.any
            (fun c => a.conditionMatcher c (EvaluationContext.fromTasksState s now))
          && !(a.updateFromTasksState s now).getSnapshot.downtimeEnabled))
    ∧ (!((a.updateFromTasksState s now).getSnapshot.naggingEnabled
          && (a.updateFromTasksState s now).getSnapshot.downtimeEnabled)) = true
    ∧ ((a.updateFromTaskStateError e now).getSnapshot.downtimeEnabled
        = a.configuration.downtimeConditions.any
            (fun c => a.conditionMatcher c (EvaluationContext.fromError e now)))
    ∧ ((a.updateFromTaskStateError e now).getSnapshot.naggingEnabled
        = (a.configuration.naggingConditions.any
            (fun c => a.conditionMatcher c (EvaluationContext.fromError e now))
          && !(a.updateFromTaskStateError e now).getSnapshot.downtimeEnabled))
    ∧ (!((a.updateFromTaskStateError e now).getSnapshot.naggingEnabled
          && (a.updateFromTaskStateError e now).getSnapshot.downtimeEnabled)) = true := by
  refine ⟨rfl, rfl, ?_, rfl, rfl, ?_⟩
  · exact nagging_downtime_not_both _ _
  · exact nagging_downtime_not_both _ _

/-- Claim C3: `updateFromTaskStateError(e, now)` sets the snapshot status to
`error` and the message to exactly `e`, for every configuration and
timestamp; custom state rules are never consulted on this path (the result
is invariant under replacing the custom state rules). -/
theorem appState_error_update_sets_error_status {C : Type} (a : AppState C)
    (e : String) (now : Int) (rules : List (CustomStateRule C)) :
    (a.updateFromTaskStateError e now).getSnapshot.status = Status.error
    ∧ (a.updateFromTaskStateError e now).getSnapshot.message = e
    ∧ ((a.configure { a.configuration with customStateRules := rules
        }).updateFromTaskStateError e now).getSnapshot
        = (a.updateFromTaskStateError e now).getSnapshot :=
  ⟨rfl, rfl, rfl⟩

/-- Claim C5: nagging and downtime conditions are still evaluated on the
error path: `updateFromTaskStateError` recomputes both flags from the
configured condition lists, and a matching nagging condition (with no
matching downtime condition) yields `naggingEnabled = true` even though the
status is `error`. -/
theorem appState_error_path_evaluates_conditions {C : Type} (a : AppState C)
    (e : String) (now : Int) :
    ((a.updateFromTaskStateError e now).getSnapshot.downtimeEnabled
        = a.configuration.downtimeConditions.any
            (fun c => a.conditionMatcher c (EvaluationContext.fromError e now)))
    ∧ ((a.updateFromTaskStateError e now).getSnapshot.naggingEnabled
        = (a.configuration.naggingConditions.any
            (fun c => a.conditionMatcher c (EvaluationContext.fromError e now))
          && !(a.configuration.downtimeConditions.any
            (fun c => a.conditionMatcher c (EvaluationContext.fromError e now)))))
    ∧ ((∃ c ∈ a.configuration.naggingConditions,
          a.conditionMatcher c (EvaluationContext.fromError e now) = true) →
        (∀ c ∈ a.configuration.downtimeConditions,
          a.conditionMatcher c (EvaluationContext.fromError e now) = false) →
        (a.updateFromTaskStateError e now).getSnapshot.naggingEnabled = true
        ∧ (a.updateFromTaskStateError e now).getSnapshot.status = Status.error) := by
  refine ⟨rfl, rfl, ?_⟩
  rintro ⟨c, hc, hm⟩ hnd
  refine ⟨?_, rfl⟩
  show (a.configuration.naggingConditions.any
      (fun c => a.conditionMatcher c (EvaluationContext.fromError e now))
    && !(a.configuration.downtimeConditions.any
      (fun c => a.conditionMatcher c (EvaluationContext.fromError e now)))) = true
  have h1 : a.configuration.naggingConditions.any
      (fun c => a.conditionMatcher c (EvaluationContext.fromError e now)) = true :=
    List.any_eq_true.mpr ⟨c, hc, hm⟩
  have h2 : a.configuration.downtimeConditions.any
      (fun c => a.conditionMatcher c (EvaluationContext.fromError e now)) = false := by
    rw [List.any_eq_false]
    intro d hd
    simp [hnd d hd]
  rw [h1, h2]
  rfl

/-- Claim C7: when the nagging and downtime condition lists are empty (the
default for absent lists), every update yields both flags false; and a
configuration whose every condition fails behaves identically. -/
theorem appState_empty_condition_lists {C : Type} (a : AppState C)
    (s : TasksState) (e : String) (now : Int) :
    (a.configuration.naggingConditions = [] →
      a.configuration.downtimeConditions = [] →
      (a.updateFromTasksState s now).getSnapshot.naggingEnabled = false
      ∧ (a.updateFromTasksState s now).getSnapshot.downtimeEnabled = false
      ∧ (a.updateFromTaskStateError e now).getSnapshot.naggingEnabled = false
      ∧ (a.updateFromTaskStateError e now).getSnapshot.downtimeEnabled = false)
    ∧ ((∀ c ∈ a.configuration.naggingConditions, ∀ ctx, a.conditionMatcher c ctx = false) →
      (∀ c ∈ a.configuration.downtimeConditions, ∀ ctx, a.conditionMatcher c ctx = false) →
      (a.updateFromTasksState s now).getSnapshot.naggingEnabled = false
      ∧ (a.updateFromTasksState s now).getSnapshot.downtimeEnabled = false
      ∧ (a.updateFromTaskStateError e now).getSnapshot.naggingEnabled = false
      ∧ (a.updateFromTaskStateError e now).getSnapshot.downtimeEnabled = false) := by
  constructor
  · intro hn hd
    simp [AppState.updateFromTasksState, AppState.updateFromTaskStateError,
      AppState.getSnapshot, computeTasksStateSnapshot, computeErrorSnapshot,
      computeFlags, hn, hd]
  · intro hn hd
    have hdt : ∀ ctx, a.configuration.downtimeConditions.any
        (fun c => a.conditionMatcher c ctx) = false := by
      intro ctx
      rw [List.any_eq_false]
      intro c hc
      simp [hd c hc ctx]
    have hng : ∀ ctx, a.configuration.naggingConditions.any
        (fun c => a.conditionMatcher c ctx) = false := by
      intro ctx
      rw [List.any_eq_false]
      intro c hc
      simp [hn c hc ctx]
    simp [AppState.updateFromTasksState, AppState.updateFromTaskStateError,
      AppState.getSnapshot, computeTasksStateSnapshot, computeErrorSnapshot,
      computeFlags, hdt, hng]

/-- Claim C8: `getSnapshot` is a pure, idempotent read: two consecutive
reads with no intervening update return equal snapshots, the read leaves
the aggregator state unchanged, and the returned value is the held
snapshot by value. -/
theorem appState_getSnapshot_pure_read {C : Type} (a : AppState C) :
    a.readSnapshot.1 = a.readSnapshot.2.readSnapshot.1
    ∧ a.readSnapshot.2 = a
    ∧ a.readSnapshot.1 = a.getSnapshot :=
  ⟨rfl, rfl, rfl⟩

/-- An ordered scan skips a prefix none of whose elements satisfies the
predicate. -/
theorem find?_append_of_forall_neg {α : Type} (p : α → Bool) (pre rest : List α)
    (h : ∀ x ∈ pre, p x = false) :
    List.find? p (pre ++ rest) = List.find? p rest := by
  induction pre with
  | nil => rfl
  | cons a l ih =>
    have ha : p a = false := h a (List.mem_cons_self a l)
    rw [List.cons_append, List.find?_cons_of_neg _ (by simp [ha])]
    exact ih (fun x hx => h x (List.mem_cons_of_mem a hx))

/-- The default derivation always reports severity `ok`. -/
theorem defaultStatusMessage_status (s : TasksState) :
    (defaultStatusMessage s).1 = Status.ok := by
  unfold defaultStatusMessage
  split
  · rfl
  · split <;> rfl

/-- Default message when exactly one task is marked current. -/
theorem defaultStatusMessage_one (s : TasksState) (h1 : s.numberMarkedCurrent = 1) :
    (defaultStatusMessage s).2 = s.currentTaskTitle := by
  simp [defaultStatusMessage, h1]

/-- Default message when no task is marked current. -/
theorem defaultStatusMessage_zero (s : TasksState) (h0 : s.numberMarkedCurrent = 0) :
    (defaultStatusMessage s).2 = "(no current task)" := by
  simp [defaultStatusMessage, h0]

/-- Default message when several tasks are marked current. -/
theorem defaultStatusMessage_many (s : TasksState) (hm : 1 < s.numberMarkedCurrent) :
    (defaultStatusMessage s).2
      = "(" ++ toString s.numberMarkedCurrent ++ " tasks marked current)" := by
  have h1 : s.numberMarkedCurrent ≠ 1 := by omega
  have h0 : s.numberMarkedCurrent ≠ 0 := by omega
  simp [defaultStatusMessage, h1, h0]

/-- Claim C1: `updateFromTasksState` adopts the status and message of the
first custom state rule whose condition matches, scanning in configured
order and ignoring every later rule; when no rule matches, the default
derivation stands. -/
theorem appState_first_matching_rule_wins {C : Type} (m : C → EvaluationContext → Bool)
    (cfg : AppStateConfiguration C) (snap : StatusSnapshot)
    (pre post rules : List (CustomStateRule C)) (r : CustomStateRule C)
    (s : TasksState) (now : Int) :
    ((∀ q ∈ pre, m q.condition (EvaluationContext.fromTasksState s now) = false) →
      m r.condition (EvaluationContext.fromTasksState s now) = true →
      ((AppState.mk m { cfg with customStateRules := pre ++ r :: post }
          snap).updateFromTasksState s now).getSnapshot.status = r.resultingStatus
      ∧ ((AppState.mk m { cfg with customStateRules := pre ++ r :: post }
          snap).updateFromTasksState s now).getSnapshot.message = r.resultingMessage)
    ∧ ((∀ q ∈ rules, m q.condition (EvaluationContext.fromTasksState s now) = false) →
      ((AppState.mk m { cfg with customStateRules := rules }
          snap).updateFromTasksState s now).getSnapshot.status = (defaultStatusMessage s).1
      ∧ ((AppState.mk m { cfg with customStateRules := rules }
          snap).updateFromTasksState s now).getSnapshot.message = (defaultStatusMessage s).2) := by
  constructor
  · intro hpre hr
    have hfind : List.find?
        (fun q => m q.condition (EvaluationContext.fromTasksState s now))
        (pre ++ r :: post) = some r := by
      rw [find?_append_of_forall_neg _ _ _ hpre]
      exact List.find?_cons_of_pos _ hr
    constructor <;>
      simp [AppState.updateFromTasksState, AppState.getSnapshot,
        computeTasksStateSnapshot, computeFlags, hfind]
  · intro hall
    have hfind : List.find?
        (fun q => m q.condition (EvaluationContext.fromTasksState s now))
        rules = none :=
      List.find?_eq_none.mpr (fun q hq => by simp [hall q hq])
    constructor <;>
      simp [AppState.updateFromTasksState, AppState.getSnapshot,
        computeTasksStateSnapshot, computeFlags, hfind]

/-- The `baseTasksState` fixture of the test suite. -/
def baseTasksState : TasksState :=
  { numberOverdueWithTime := 0, numberOverdueWithTimeMarkedCurrent := 0,
    numberOverdueWithTimeNotMarkedCurrent := 0, numberMarkedCurrent := 0,
    currentTaskTitle := "", currentTaskHasDate := false,
    currentTaskHasTime := false, currentTaskIsOverdue := false }

/-- A neutral snapshot value used to construct concrete aggregators. -/
def blankSnapshot : StatusSnapshot :=
  { status := Status.ok, message := "", naggingEnabled := false, downtimeEnabled := false }

/-- Witness for claim C1, mirroring the test "applies the first matching
rule, ignoring others": conditions are numbers, condition 1 passes and
condition 0 fails. -/
theorem appState_first_matching_rule_wins_witness :
    ((AppState.mk (fun c (_ : EvaluationContext) => c == 1)
        { customStateRules :=
            [CustomStateRule.mk 0 Status.ok "Other message"]
            ++ CustomStateRule.mk 1 Status.warning "firstMatchingRuleMessage"
            :: [CustomStateRule.mk 1 Status.error "Other message"] }
        blankSnapshot : AppState Nat).updateFromTasksState
          baseTasksState 0).getSnapshot.status = Status.warning
    ∧ ((AppState.mk (fun c (_ : EvaluationContext) => c == 1)
        { customStateRules :=
            [CustomStateRule.mk 0 Status.ok "Other message"]
            ++ CustomStateRule.mk 1 Status.warning "firstMatchingRuleMessage"
            :: [CustomStateRule.mk 1 Status.error "Other message"] }
        blankSnapshot : AppState Nat).updateFromTasksState
          baseTasksState 0).getSnapshot.message = "firstMatchingRuleMessage" :=
  (appState_first_matching_rule_wins (fun c (_ : EvaluationContext) => c == 1)
    {} blankSnapshot
    [CustomStateRule.mk 0 Status.ok "Other message"]
    [CustomStateRule.mk 1 Status.error "Other message"]
    []
    (CustomStateRule.mk 1 Status.warning "firstMatchingRuleMessage")
    baseTasksState 0).1 (by decide) (by decide)

/-- Claim C4: when no custom rule matches, `updateFromTasksState` derives
status `ok` and the message determined by `numberMarkedCurrent`: the
current task title for exactly one, "(no current task)" for zero, and
"(N tasks marked current)" for N greater than one. -/
theorem appState_default_derivation {C : Type} (a : AppState C)
    (s : TasksState) (now : Int)
    (h : ∀ q ∈ a.configuration.customStateRules,
      a.conditionMatcher q.condition (EvaluationContext.fromTasksState s now) = false) :
    (a.updateFromTasksState s now).getSnapshot.status = Status.ok
    ∧ (s.numberMarkedCurrent = 1 →
        (a.updateFromTasksState s now).getSnapshot.message = s.currentTaskTitle)
    ∧ (s.numberMarkedCurrent = 0 →
        (a.updateFromTasksState s now).getSnapshot.message = "(no current task)")
    ∧ (1 < s.numberMarkedCurrent →
        (a.updateFromTasksState s now).getSnapshot.message
          = "(" ++ toString s.numberMarkedCurrent ++ " tasks marked current)") := by
  have hfind : List.find?
      (fun q => a.conditionMatcher q.condition (EvaluationContext.fromTasksState s now))
      a.configuration.customStateRules = none :=
    List.find?_eq_none.mpr (fun q hq => by simp [h q hq])
  have hst : (a.updateFromTasksState s now).getSnapshot.status = (defaultStatusMessage s).1 := by
    simp [AppState.updateFromTasksState, AppState.getSnapshot,
      computeTasksStateSnapshot, computeFlags, hfind]
  have hmsg : (a.updateFromTasksState s now).getSnapshot.message = (defaultStatusMessage s).2 := by
    simp [AppState.updateFromTasksState, AppState.getSnapshot,
      computeTasksStateSnapshot, computeFlags, hfind]
  refine ⟨hst.trans (defaultStatusMessage_status s), ?_, ?_, ?_⟩
  · intro h1
    exact hmsg.trans (defaultStatusMessage_one s h1)
  · intro h0
    exact hmsg.trans (defaultStatusMessage_zero s h0)
  · intro hm
    exact hmsg.trans (defaultStatusMessage_many s hm)

/-- A concrete aggregator whose single custom rule never matches. -/
def defaultDerivationState : AppState Nat :=
  { conditionMatcher := fun c _ => c == 1,
    configuration := { customStateRules := [CustomStateRule.mk 0 Status.warning "Message"] },
    snapshot := blankSnapshot }

/-- The test fixture with three tasks marked current. -/
def multipleCurrentTasksState : TasksState :=
  { baseTasksState with numberMarkedCurrent := 3 }

/-- Witness for claim C4, mirroring the test "indicates if there are
multiple tasks marked current". -/
theorem appState_default_derivation_witness :
    (defaultDerivationState.updateFromTasksState multipleCurrentTasksState 0).getSnapshot.status
      = Status.ok
    ∧ (defaultDerivationState.updateFromTasksState multipleCurrentTasksState 0).getSnapshot.message
      = "(3 tasks marked current)" := by
  have h := appState_default_derivation defaultDerivationState multipleCurrentTasksState 0 (by decide)
  exact ⟨h.1, (h.2.2.2 (by decide)).trans (by decide)⟩

/-- Claim C6: if the condition matcher raises during an update, the failure
propagates and no partial snapshot update occurs: the aggregator the caller
observes after a failed evaluation is the pre-failure one, so
`getSnapshot()` returns the pre-failure snapshot unchanged; this holds for
both entry points. -/
theorem fallibleAppState_failed_update_is_atomic {C : Type} (a : FallibleAppState C)
    (s : TasksState) (e msg : String) (now : Int) :
    ((a.tryUpdateFromTasksState s now).2 = some msg →
      (a.tryUpdateFromTasksState s now).1.getSnapshot = a.getSnapshot
      ∧ (a.tryUpdateFromTasksState s now).1 = a)
    ∧ ((a.tryUpdateFromTaskStateError e now).2 = some msg →
      (a.tryUpdateFromTaskStateError e now).1.getSnapshot = a.getSnapshot
      ∧ (a.tryUpdateFromTaskStateError e now).1 = a) := by
  constructor
  · intro h
    cases hev : evaluateTasksState a.conditionMatcher a.configuration s now with
    | ok snap =>
      rw [FallibleAppState.tryUpdateFromTasksState, hev] at h
      simp at h
    | error err =>
      rw [FallibleAppState.tryUpdateFromTasksState, hev]
      exact ⟨rfl, rfl⟩
  · intro h
    cases hev : evaluateTaskStateError a.conditionMatcher a.configuration e now with
    | ok snap =>
      rw [FallibleAppState.tryUpdateFromTaskStateError, hev] at h
      simp at h
    | error err =>
      rw [FallibleAppState.tryUpdateFromTaskStateError, hev]
      exact ⟨rfl, rfl⟩

/-- A concrete aggregator whose injected matcher always raises, with one
nagging condition so the matcher is actually consulted. -/
def failingMatcherState : FallibleAppState Nat :=
  { conditionMatcher := fun _ _ => Except.error "matcher failure",
    configuration := { naggingConditions := [0] },
    snapshot := { status := Status.ok, message := "prev",
                  naggingEnabled := false, downtimeEnabled := false } }

/-- Witness for claim C6: a concrete failed evaluation leaves the snapshot
untouched. -/
theorem fallibleAppState_failed_update_is_atomic_witness :
    (failingMatcherState.tryUpdateFromTasksState baseTasksState 0).2 = some "matcher failure"
    ∧ (failingMatcherState.tryUpdateFromTasksState baseTasksState 0).1.getSnapshot
        = failingMatcherState.getSnapshot :=
  ⟨rfl,
   ((fallibleAppState_failed_update_is_atomic failingMatcherState baseTasksState
      "errorMessage" "matcher failure" 0).1 rfl).1⟩

/-- A concrete aggregator with one passing nagging condition and no
downtime conditions, as in the test "also applies in case of task state
errors". -/
def errorPathWitnessState : AppState Nat :=
  { conditionMatcher := fun c _ => c == 1,
    configuration := { naggingConditions := [1] },
    snapshot := blankSnapshot }

/-- Witness for claim C5: after a concrete error update with a matching
nagging condition, nagging is enabled while the status is `error`. -/
theorem appState_error_path_evaluates_conditions_witness :
    (errorPathWitnessState.updateFromTaskStateError "errorMessage" 0).getSnapshot.naggingEnabled
      = true
    ∧ (errorPathWitnessState.updateFromTaskStateError "errorMessage" 0).getSnapshot.status
      = Status.error :=
  (appState_error_path_evaluates_conditions errorPathWitnessState "errorMessage" 0).2.2
    ⟨1, by decide, by decide⟩ (by decide)

/-- A concrete aggregator with no configured nagging or downtime
conditions. -/
def emptyConditionsState : AppState Nat :=
  { conditionMatcher := fun _ _ => true,
    configuration := {},
    snapshot := blankSnapshot }

/-- Witness for claim C7: with empty condition lists, both flags are false
after a concrete tasks-state update and a concrete error update. -/
theorem appState_empty_condition_lists_witness :
    (emptyConditionsState.updateFromTasksState baseTasksState 0).getSnapshot.naggingEnabled = false
    ∧ (emptyConditionsState.updateFromTasksState baseTasksState 0).getSnapshot.downtimeEnabled = false
    ∧ (emptyConditionsState.updateFromTaskStateError "errorMessage" 0).getSnapshot.naggingEnabled = false
    ∧ (emptyConditionsState.updateFromTaskStateError "errorMessage" 0).getSnapshot.downtimeEnabled = false :=
  (appState_empty_condition_lists emptyConditionsState baseTasksState "errorMessage" 0).1 rfl rfl
